import Mathlib

/-!
Verification of the delivery-charge engine of the Mithaas Delights backend
(`backend/delivery_utils.py` and the `/delivery/calculate` route of
`backend/comprehensive_server.py`).

The Python code is shallowly embedded:
* `haversine_distance` is embedded over the exact reals (the source works on
  IEEE doubles; claims about it are settled over the exact-real arithmetic).
* The pricing decision taken after the distance has been computed and rounded
  (lines 83-110 of `delivery_utils.py`) is embedded once, generically over a
  linear ordered field, as `calculate_delivery_charge_core`; the full
  function `calculate_delivery_charge` instantiates it at `ℝ`, claims about
  the pricing table alone instantiate it at `ℚ` so they can be evaluated.
* Python's `round(x, 2)` (nearest multiple of 1/100) is embedded as `round2`.
  Python breaks exact ties towards even; `round` in Mathlib breaks them
  upwards; no claim below depends on a tie.
* The f-string messages of the source are embedded symbolically
  (`QuoteMessage`), keeping the numeric payloads but not Python's float
  formatting, which no claim mentions.
-/

namespace Delivery

/-- Symbolic embedding of the message strings built by
`calculate_delivery_charge` in `delivery_utils.py`. -/
inductive QuoteMessage (α : Type) where
  /-- "Pickup from store - No delivery charge" -/
  | pickup_message : QuoteMessage α
  /-- "Free delivery (Order ≥ ₹{FREE_DELIVERY_MIN_AMOUNT} & Distance ≤ {FREE_DELIVERY_MAX_DISTANCE_KM}km)" -/
  | free_rule_message : QuoteMessage α
  /-- "Free delivery" (the `else` arm of line 109) -/
  | free_message : QuoteMessage α
  /-- f"Delivery to {distance}km - ₹{delivery_charge}" -/
  | paid_message (distance delivery_charge : α) : QuoteMessage α
  deriving Repr, DecidableEq

/-- The dictionary returned by `calculate_delivery_charge`
(`delivery_utils.py`, lines 68-74, 84-90, 104-110). -/
structure DeliveryQuote (α : Type) where
  distance_km : α
  delivery_charge : α
  is_free_delivery : Bool
  delivery_type : String
  message : QuoteMessage α
  deriving Repr, DecidableEq

/-- `SHOP_LAT = 22.738152` (`delivery_utils.py`, line 9). -/
noncomputable def SHOP_LAT : ℝ := 22.738152

/-- `SHOP_LON = 75.831858` (`delivery_utils.py`, line 10). -/
noncomputable def SHOP_LON : ℝ := 75.831858

/-- `FREE_DELIVERY_MIN_AMOUNT = 1500` (`delivery_utils.py`, line 13). -/
def FREE_DELIVERY_MIN_AMOUNT {α : Type} [LinearOrderedField α] : α := 1500

/-- `FREE_DELIVERY_MAX_DISTANCE_KM = 10` (`delivery_utils.py`, line 14). -/
def FREE_DELIVERY_MAX_DISTANCE_KM {α : Type} [LinearOrderedField α] : α := 10

/-- `BASE_DELIVERY_CHARGE_0_10KM = 50` (`delivery_utils.py`, line 15). -/
def BASE_DELIVERY_CHARGE_0_10KM {α : Type} [LinearOrderedField α] : α := 50

/-- `BASE_DELIVERY_CHARGE_10_20KM = 100` (`delivery_utils.py`, line 16). -/
def BASE_DELIVERY_CHARGE_10_20KM {α : Type} [LinearOrderedField α] : α := 100

/-- `BASE_DELIVERY_CHARGE_20_30KM = 150` (`delivery_utils.py`, line 17). -/
def BASE_DELIVERY_CHARGE_20_30KM {α : Type} [LinearOrderedField α] : α := 150

/-- `BASE_DELIVERY_CHARGE_ABOVE_30KM = 200` (`delivery_utils.py`, line 18). -/
def BASE_DELIVERY_CHARGE_ABOVE_30KM {α : Type} [LinearOrderedField α] : α := 200

/-- `math.radians`: degrees to radians. -/
noncomputable def radians (x : ℝ) : ℝ := x * Real.pi / 180

/-- `haversine_distance` (`delivery_utils.py`, lines 21-45), over exact reals. -/
noncomputable def haversine_distance (lat1 lon1 lat2 lon2 : ℝ) : ℝ :=
  let lat1r := radians lat1
  let lon1r := radians lon1
  let lat2r := radians lat2
  let lon2r := radians lon2
  let dlat := lat2r - lat1r
  let dlon := lon2r - lon1r
  let a := Real.sin (dlat / 2) ^ 2 +
    Real.cos lat1r * Real.cos lat2r * Real.sin (dlon / 2) ^ 2
  let c := 2 * Real.arcsin (Real.sqrt a)
  let r : ℝ := 6371
  c * r

/-- Python's `round(x, 2)`: round to the nearest multiple of 1/100
(`delivery_utils.py`, line 80). -/
def round2 {α : Type} [LinearOrderedField α] [FloorRing α] (x : α) : α :=
  (round (100 * x) : ℤ) / 100

/-- Lines 83-110 of `calculate_delivery_charge` (`delivery_utils.py`): the
decision taken once the (already rounded) distance is known.  Generic over a
linear ordered field so the same translation serves both the full `ℝ`-valued
function and exact evaluation at `ℚ`. -/
def calculate_delivery_charge_core {α : Type} [LinearOrderedField α]
    (distance : α) (order_amount : α) : DeliveryQuote α :=
  if order_amount ≥ FREE_DELIVERY_MIN_AMOUNT ∧ distance ≤ FREE_DELIVERY_MAX_DISTANCE_KM then
    { distance_km := distance
      delivery_charge := 0
      is_free_delivery := true
      delivery_type := "delivery"
      message := .free_rule_message }
  else
    let delivery_charge : α :=
      if distance ≤ 10 then
        if order_amount < FREE_DELIVERY_MIN_AMOUNT then BASE_DELIVERY_CHARGE_0_10KM else 0
      else if distance ≤ 20 then BASE_DELIVERY_CHARGE_10_20KM
      else if distance ≤ 30 then BASE_DELIVERY_CHARGE_20_30KM
      else BASE_DELIVERY_CHARGE_ABOVE_30KM
    let is_free : Bool := delivery_charge = 0
    { distance_km := distance
      delivery_charge := delivery_charge
      is_free_delivery := is_free
      delivery_type := "delivery"
      message := if is_free then .free_message else .paid_message distance delivery_charge }

/-- Python's `str.lower` (used on line 67 of `delivery_utils.py`).
Extensionally identical to `String.toLower`, but written with `List.map`
(rather than `String.mapAux`, whose well-founded recursion the kernel cannot
unfold) so that concrete calls evaluate by `decide`. -/
def pyLower (s : String) : String := ⟨s.data.map Char.toLower⟩

/-- `calculate_delivery_charge` (`delivery_utils.py`, lines 48-110). -/
noncomputable def calculate_delivery_charge (customer_lat customer_lon : ℝ)
    (order_amount : ℝ) (delivery_type : String := "delivery") : DeliveryQuote ℝ :=
  if pyLower delivery_type = "pickup" then
    { distance_km := 0
      delivery_charge := 0
      is_free_delivery := true
      delivery_type := "pickup"
      message := .pickup_message }
  else
    calculate_delivery_charge_core
      (round2 (haversine_distance SHOP_LAT SHOP_LON customer_lat customer_lon))
      order_amount

/-- The `pincode_map` dictionary of `geocode_address`
(`delivery_utils.py`, lines 131-138). -/
def pincode_map : List (String × ℚ × ℚ) :=
  [("452", (22.7196, 75.8577)),
   ("453", (22.7500, 75.8500)),
   ("400", (19.0760, 72.8777)),
   ("110", (28.7041, 77.1025)),
   ("560", (12.9716, 77.5946)),
   ("600", (13.0827, 80.2707))]

/-- `geocode_address` (`delivery_utils.py`, lines 113-146).  The Python
function is `async` but performs no IO; `if pincode:` is Python truthiness
(neither `None` nor the empty string), `pincode[:3]` is `String.take 3`, a
failed dictionary-membership test falls through to the fixed fallback
coordinate. -/
def geocode_address (pincode : Option String := none)
    (address : Option String := none) : ℚ × ℚ :=
  match pincode with
  | some p =>
    if p ≠ "" then
      match pincode_map.lookup (p.take 3) with
      | some coords => coords
      | none => (22.7196, 75.8577)
    else (22.7196, 75.8577)
  | none => (22.7196, 75.8577)

/-- The variant of `calculate_delivery_charge_core` described by the spec's
design note on the redundant order-amount re-check: the `distance ≤ 10`
tier arm yields the constant `BASE_DELIVERY_CHARGE_0_10KM` instead of
`BASE_DELIVERY_CHARGE_0_10KM if order_amount < FREE_DELIVERY_MIN_AMOUNT
else 0`.  Everything else is unchanged. -/
def calculate_delivery_charge_core_simplified {α : Type} [LinearOrderedField α]
    (distance : α) (order_amount : α) : DeliveryQuote α :=
  if order_amount ≥ FREE_DELIVERY_MIN_AMOUNT ∧ distance ≤ FREE_DELIVERY_MAX_DISTANCE_KM then
    { distance_km := distance
      delivery_charge := 0
      is_free_delivery := true
      delivery_type := "delivery"
      message := .free_rule_message }
  else
    let delivery_charge : α :=
      if distance ≤ 10 then BASE_DELIVERY_CHARGE_0_10KM
      else if distance ≤ 20 then BASE_DELIVERY_CHARGE_10_20KM
      else if distance ≤ 30 then BASE_DELIVERY_CHARGE_20_30KM
      else BASE_DELIVERY_CHARGE_ABOVE_30KM
    let is_free : Bool := delivery_charge = 0
    { distance_km := distance
      delivery_charge := delivery_charge
      is_free_delivery := is_free
      delivery_type := "delivery"
      message := if is_free then .free_message else .paid_message distance delivery_charge }

/-- `calculate_delivery_charge` with the simplified tier table substituted,
as the claim about the redundant re-check describes. -/
noncomputable def calculate_delivery_charge_simplified (customer_lat customer_lon : ℝ)
    (order_amount : ℝ) (delivery_type : String := "delivery") : DeliveryQuote ℝ :=
  if pyLower delivery_type = "pickup" then
    { distance_km := 0
      delivery_charge := 0
      is_free_delivery := true
      delivery_type := "pickup"
      message := .pickup_message }
  else
    calculate_delivery_charge_core_simplified
      (round2 (haversine_distance SHOP_LAT SHOP_LON customer_lat customer_lon))
      order_amount

/-- Modelled from the spec: `delivery_calculator.validate_coordinates` lives in
`enhanced_delivery_system.py`, which `comprehensive_server.py` imports but
which is absent from the sources.  Spec section 4.4: "validateCoordinates(lat,
lon) -> bool: returns false if either value is outside its valid range, or not
a finite number", with the range invariant of section 3: latitude in
[-90, 90], longitude in [-180, 180].  Rationals are always finite, so the
non-finite case has no counterpart in this embedding. -/
def validate_coordinates (lat lon : ℚ) : Bool :=
  decide (-90 ≤ lat ∧ lat ≤ 90 ∧ -180 ≤ lon ∧ lon ≤ 180)

/-- Round to 4 decimal places: the cache-key coordinate rounding suggested by
spec section 4.4 ("rounding coordinates to a fixed precision, e.g. 4 decimal
places"). -/
def round4 (x : ℚ) : ℚ := (round (10000 * x) : ℤ) / 10000

/-- Modelled from the spec: the stateful `DeliveryCalculator` facade of
`enhanced_delivery_system.py` (absent from the sources), reduced to the state
the claims touch — its memoization cache, keyed by
(rounded lat, rounded lon, order_amount, mode) per spec section 3. -/
structure DeliveryCalculator where
  cache : List ((ℚ × ℚ × ℚ × String) × DeliveryQuote ℚ)

/-- Modelled from the spec: `calculate_with_caching` of
`enhanced_delivery_system.py` (absent from the sources), spec section 4.4: on
a cache hit return the stored quote unchanged; on a miss invoke
GeoDistance(ShopOrigin, (lat, lon)), then the pricing policy, store the result
under the key, and return it.  The great-circle distance computation is passed
in as `dist` (it is the GeoDistance collaborator; its exact-real value is not
computable), composed with the same rounding and pricing decision as
`calculate_delivery_charge`. -/
def calculate_with_caching (dist : ℚ → ℚ → ℚ) (dcalc : DeliveryCalculator)
    (lat lon order_amount : ℚ) (mode : String) :
    DeliveryQuote ℚ × DeliveryCalculator :=
  let key := (round4 lat, round4 lon, order_amount, mode)
  match dcalc.cache.lookup key with
  | some q => (q, dcalc)
  | none =>
    let q : DeliveryQuote ℚ :=
      if pyLower mode = "pickup" then
        { distance_km := 0
          delivery_charge := 0
          is_free_delivery := true
          delivery_type := "pickup"
          message := .pickup_message }
      else
        calculate_delivery_charge_core (round2 (dist lat lon)) order_amount
    (q, ⟨(key, q) :: dcalc.cache⟩)

/-- The `POST /delivery/calculate` route handler `calculate_delivery_charges`
(`comprehensive_server.py`, lines 388-402): when
`delivery_calculator.validate_coordinates` fails it raises
`HTTPException(status_code=400, detail="Invalid coordinates")` and returns
before `calculate_with_caching` runs; otherwise it returns the quote from
`calculate_with_caching`.  The raised exception is embedded as
`Except.error (400, "Invalid coordinates")`, and the handler's effect on the
shared calculator is made explicit by threading the state: on the error path
the calculator is returned untouched. -/
def calculate_delivery_charges (dist : ℚ → ℚ → ℚ) (dcalc : DeliveryCalculator)
    (customer_lat customer_lon order_amount : ℚ)
    (delivery_type : String := "delivery") :
    Except (ℕ × String) (DeliveryQuote ℚ) × DeliveryCalculator :=
  if !(validate_coordinates customer_lat customer_lon) then
    (.error (400, "Invalid coordinates"), dcalc)
  else
    let r := calculate_with_caching dist dcalc customer_lat customer_lon
      order_amount delivery_type
    (.ok r.1, r.2)


lemma haversine_same (lat lon : ℝ) : haversine_distance lat lon lat lon = 0 := by
  unfold haversine_distance
  simp [Real.arcsin_zero]

lemma round2_zero : round2 (0 : ℝ) = 0 := by
  simp [round2]

lemma charge_of_lt_free {α : Type} [LinearOrderedField α] (d amt : α)
    (h : amt < FREE_DELIVERY_MIN_AMOUNT) :
    (calculate_delivery_charge_core d amt).delivery_charge =
      if d ≤ 10 then 50 else if d ≤ 20 then 100 else if d ≤ 30 then 150 else 200 := by
  unfold calculate_delivery_charge_core
  rw [if_neg (by intro hc; exact absurd hc.1 (not_le.mpr h))]
  simp only [FREE_DELIVERY_MIN_AMOUNT, BASE_DELIVERY_CHARGE_0_10KM,
    BASE_DELIVERY_CHARGE_10_20KM, BASE_DELIVERY_CHARGE_20_30KM,
    BASE_DELIVERY_CHARGE_ABOVE_30KM] at h ⊢
  split_ifs with h1 h2 <;> simp [if_pos, if_neg, h]

lemma haversine_def (lat1 lon1 lat2 lon2 : ℝ) :
    haversine_distance lat1 lon1 lat2 lon2 =
      2 * Real.arcsin (Real.sqrt (Real.sin ((radians lat2 - radians lat1) / 2) ^ 2 +
        Real.cos (radians lat1) * Real.cos (radians lat2) *
        Real.sin ((radians lon2 - radians lon1) / 2) ^ 2)) * 6371 := rfl

/-- Pointwise equality of the two tier tables: the `else 0` arm of the
order-amount re-check is unreachable. -/
lemma core_eq_simplified {α : Type} [LinearOrderedField α] (d amt : α) :
    calculate_delivery_charge_core d amt = calculate_delivery_charge_core_simplified d amt := by
  unfold calculate_delivery_charge_core calculate_delivery_charge_core_simplified
  by_cases hfree : amt ≥ FREE_DELIVERY_MIN_AMOUNT ∧ d ≤ FREE_DELIVERY_MAX_DISTANCE_KM
  · rw [if_pos hfree, if_pos hfree]
  · rw [if_neg hfree, if_neg hfree]
    by_cases h10 : d ≤ 10
    · have hlt : amt < FREE_DELIVERY_MIN_AMOUNT := by
        by_contra hge
        exact hfree ⟨le_of_not_lt hge, by
          simpa [FREE_DELIVERY_MAX_DISTANCE_KM] using h10⟩
      rw [if_pos h10, if_pos h10, if_pos hlt]
    · rw [if_neg h10, if_neg h10]

/-- C2: for every coordinate pair and order amount, a call to
`calculate_delivery_charge` with `delivery_type = "pickup"` returns the fixed
pickup quote — `delivery_charge = 0`, `is_free_delivery = true`,
`distance_km = 0` — as one constant record that does not depend on the
coordinates or the amount, so no distance is computed. -/
theorem pickup_short_circuit (customer_lat customer_lon order_amount : ℝ) :
    calculate_delivery_charge customer_lat customer_lon order_amount "pickup" =
      { distance_km := 0
        delivery_charge := 0
        is_free_delivery := true
        delivery_type := "pickup"
        message := .pickup_message } := rfl

/-- C10: the result of `geocode_address` is independent of its `address`
argument — two calls that differ only in the address string (absent or
arbitrary) return the same coordinate pair. -/
theorem geocode_address_ignores_address (pincode a1 a2 : Option String) :
    geocode_address pincode a1 = geocode_address pincode a2 := rfl

/-- C3: for every order amount strictly below 1500, the delivery charge
decided by the tier table of `calculate_delivery_charge` is a non-decreasing
function of the computed (rounded) distance, and takes the values
50 / 100 / 150 / 200 on the successive distance bands
(≤ 10, ≤ 20, ≤ 30, > 30 km). -/
theorem monotone_pricing_below_threshold (order_amount d1 d2 : ℚ)
    (hamt : order_amount < 1500) (h12 : d1 ≤ d2) :
    (calculate_delivery_charge_core d1 order_amount).delivery_charge ≤
      (calculate_delivery_charge_core d2 order_amount).delivery_charge ∧
    (calculate_delivery_charge_core d1 order_amount).delivery_charge =
      (if d1 ≤ 10 then 50 else if d1 ≤ 20 then 100 else if d1 ≤ 30 then 150 else 200) := by
  have h : order_amount < FREE_DELIVERY_MIN_AMOUNT := by
    simpa [FREE_DELIVERY_MIN_AMOUNT] using hamt
  rw [charge_of_lt_free d1 order_amount h, charge_of_lt_free d2 order_amount h]
  refine ⟨?_, rfl⟩
  split_ifs <;> norm_num <;> linarith

theorem monotone_pricing_below_threshold_witness :
    ((800 : ℚ) < 1500 ∧ (3 : ℚ) ≤ 15) ∧
    ((calculate_delivery_charge_core (3 : ℚ) 800).delivery_charge ≤
      (calculate_delivery_charge_core (15 : ℚ) 800).delivery_charge ∧
    (calculate_delivery_charge_core (3 : ℚ) 800).delivery_charge =
      (if (3 : ℚ) ≤ 10 then 50 else if (3 : ℚ) ≤ 20 then 100 else if (3 : ℚ) ≤ 30 then 150 else 200)) :=
  ⟨⟨by decide, by decide⟩,
    monotone_pricing_below_threshold 800 3 15 (by decide) (by decide)⟩

/-- C5: `haversine_distance` is symmetric — swapping the two coordinate
pairs yields exactly the same distance, over the exact-real embedding of the
arithmetic. -/
theorem haversine_distance_symm (lat1 lon1 lat2 lon2 : ℝ) :
    haversine_distance lat1 lon1 lat2 lon2 = haversine_distance lat2 lon2 lat1 lon1 := by
  have key : ∀ a b : ℝ, Real.sin ((a - b) / 2) ^ 2 = Real.sin ((b - a) / 2) ^ 2 := by
    intro a b
    rw [show (a - b) / 2 = -((b - a) / 2) by ring, Real.sin_neg]
    ring
  rw [haversine_def, haversine_def, key (radians lat2) (radians lat1),
    key (radians lon2) (radians lon1),
    mul_comm (Real.cos (radians lat1)) (Real.cos (radians lat2))]

/-- C6: `geocode_address` is total by construction and never errors; it
looks up the first 3 characters of the pincode in the static prefix table,
and whenever the pincode is absent, empty, or its 3-character prefix is not
in the table, it returns the fallback coordinate (22.7196, 75.8577). -/
theorem geocode_address_fallback (pincode address : Option String)
    (h : pincode = none ∨ pincode = some "" ∨
      ∀ p, pincode = some p → pincode_map.lookup (p.take 3) = none) :
    geocode_address pincode address = (22.7196, 75.8577) := by
  cases pincode with
  | none => rfl
  | some p =>
    have hred : geocode_address (some p) address =
        if p ≠ "" then
          (match pincode_map.lookup (p.take 3) with
           | some coords => coords
           | none => ((22.7196 : ℚ), (75.8577 : ℚ)))
        else (22.7196, 75.8577) := rfl
    rcases h with h | h | h
    · exact absurd h (by simp)
    · have hp : p = "" := by simpa using h
      subst hp
      rfl
    · rw [hred, h p rfl]
      split_ifs <;> rfl

theorem geocode_address_fallback_witness :
    (some "999026" = none ∨ some "999026" = some "" ∨
      ∀ p, some "999026" = some p → pincode_map.lookup (p.take 3) = none) ∧
    geocode_address (some "999026") (some "MG Road") = (22.7196, 75.8577) :=
  ⟨Or.inr (Or.inr fun p hp => by cases hp; decide),
    geocode_address_fallback (some "999026") (some "MG Road")
      (Or.inr (Or.inr fun p hp => by cases hp; decide))⟩

/-- C7: in every quote returned by `calculate_delivery_charge` — pickup
branch, free-delivery branch and every tier branch alike — `is_free_delivery`
is `true` if and only if `delivery_charge` equals 0. -/
theorem is_free_iff_charge_zero (lat lon amt : ℝ) (dt : String) :
    (calculate_delivery_charge lat lon amt dt).is_free_delivery = true ↔
      (calculate_delivery_charge lat lon amt dt).delivery_charge = 0 := by
  unfold calculate_delivery_charge calculate_delivery_charge_core
  split_ifs <;>
    simp [BASE_DELIVERY_CHARGE_0_10KM, BASE_DELIVERY_CHARGE_10_20KM,
      BASE_DELIVERY_CHARGE_20_30KM, BASE_DELIVERY_CHARGE_ABOVE_30KM]

/-- C8: the order-amount re-check inside the `distance ≤ 10` tier branch of
`calculate_delivery_charge` is redundant — replacing
`BASE_DELIVERY_CHARGE_0_10KM if order_amount < FREE_DELIVERY_MIN_AMOUNT else 0`
by the constant 50 (`calculate_delivery_charge_simplified`) yields an
extensionally equal function, because the `else 0` arm is unreachable: any
input with `order_amount ≥ 1500` and rounded distance `≤ 10` already took the
earlier free-delivery branch. -/
theorem simplified_tier_equal (lat lon amt : ℝ) (dt : String) :
    calculate_delivery_charge lat lon amt dt =
      calculate_delivery_charge_simplified lat lon amt dt := by
  unfold calculate_delivery_charge calculate_delivery_charge_simplified
  split_ifs with h1
  · rfl
  · exact core_eq_simplified _ _


/-- C1: for every call to `calculate_delivery_charge` with
`delivery_type = "delivery"`, `order_amount ≥ 1500` and a computed
2-decimal-rounded distance `≤ 10` km, the returned quote has
`delivery_charge = 0` and `is_free_delivery = true`. -/
theorem free_delivery_of_amount_and_distance (lat lon amt : ℝ)
    (hamt : 1500 ≤ amt)
    (hdist : round2 (haversine_distance SHOP_LAT SHOP_LON lat lon) ≤ 10) :
    (calculate_delivery_charge lat lon amt "delivery").delivery_charge = 0 ∧
    (calculate_delivery_charge lat lon amt "delivery").is_free_delivery = true := by
  unfold calculate_delivery_charge
  rw [if_neg (by decide)]
  unfold calculate_delivery_charge_core
  rw [if_pos ⟨by simpa [FREE_DELIVERY_MIN_AMOUNT] using hamt,
    by simpa [FREE_DELIVERY_MAX_DISTANCE_KM] using hdist⟩]
  exact ⟨rfl, rfl⟩

theorem free_delivery_of_amount_and_distance_witness :
    ((1500 : ℝ) ≤ 2000 ∧
      round2 (haversine_distance SHOP_LAT SHOP_LON SHOP_LAT SHOP_LON) ≤ 10) ∧
    ((calculate_delivery_charge SHOP_LAT SHOP_LON 2000 "delivery").delivery_charge = 0 ∧
      (calculate_delivery_charge SHOP_LAT SHOP_LON 2000 "delivery").is_free_delivery = true) := by
  have h1 : (1500 : ℝ) ≤ 2000 := by norm_num
  have h2 : round2 (haversine_distance SHOP_LAT SHOP_LON SHOP_LAT SHOP_LON) ≤ 10 := by
    rw [haversine_same, round2_zero]
    norm_num
  exact ⟨⟨h1, h2⟩, free_delivery_of_amount_and_distance SHOP_LAT SHOP_LON 2000 h1 h2⟩

/-- C9: for every request to `POST /delivery/calculate` whose coordinates
are out of range (for example `lat = 95.0`), `validate_coordinates` returns
`false` and the handler answers with the HTTP 400 error "Invalid coordinates"
instead of invoking `calculate_with_caching`: the result is the error pair
with the calculator state returned untouched, and it does not depend on the
distance function `dist`, so no distance or pricing computation occurs and
the cache is unchanged.  (`validate_coordinates` and `calculate_with_caching`
are modelled from the spec, `enhanced_delivery_system.py` being absent from
the sources.) -/
theorem invalid_coordinates_rejected (dist : ℚ → ℚ → ℚ) (dcalc : DeliveryCalculator)
    (lat lon amt : ℚ) (dt : String)
    (h : lat < -90 ∨ 90 < lat ∨ lon < -180 ∨ 180 < lon) :
    validate_coordinates lat lon = false ∧
    calculate_delivery_charges dist dcalc lat lon amt dt =
      (.error (400, "Invalid coordinates"), dcalc) := by
  have hv : validate_coordinates lat lon = false := by
    unfold validate_coordinates
    simp only [decide_eq_false_iff_not]
    intro hc
    rcases h with h | h | h | h
    · linarith [hc.1]
    · linarith [hc.2.1]
    · linarith [hc.2.2.1]
    · linarith [hc.2.2.2]
  refine ⟨hv, ?_⟩
  unfold calculate_delivery_charges
  rw [hv]
  rfl

theorem invalid_coordinates_rejected_witness :
    ((95 : ℚ) < -90 ∨ 90 < (95 : ℚ) ∨ (75.8577 : ℚ) < -180 ∨ 180 < (75.8577 : ℚ)) ∧
    (validate_coordinates 95 75.8577 = false ∧
      calculate_delivery_charges (fun _ _ => 0) ⟨[]⟩ 95 75.8577 100 "delivery" =
        (.error (400, "Invalid coordinates"), ⟨[]⟩)) :=
  ⟨Or.inr (Or.inl (by norm_num)),
    invalid_coordinates_rejected (fun _ _ => 0) ⟨[]⟩ 95 75.8577 100 "delivery"
      (Or.inr (Or.inl (by norm_num)))⟩


/-- Two-sided bound on `sin x ^ 2` for a small positive angle enclosed in a
rational interval, via `x - x^3/4 < sin x < x`. -/
lemma sin_sq_bounds {x lo hi : ℝ} (h0 : 0 < lo) (hl : lo ≤ x) (hh : x ≤ hi)
    (h1 : hi ≤ 1) (hq : 0 ≤ lo - hi ^ 3 / 4) :
    (lo - hi ^ 3 / 4) ^ 2 ≤ Real.sin x ^ 2 ∧ Real.sin x ^ 2 ≤ hi ^ 2 := by
  have hx0 : 0 < x := lt_of_lt_of_le h0 hl
  have hx1 : x ≤ 1 := le_trans hh h1
  have hcube : x ^ 3 ≤ hi ^ 3 := pow_le_pow_left₀ hx0.le hh 3
  have hs1 : x - x ^ 3 / 4 < Real.sin x := Real.sin_gt_sub_cube hx0 hx1
  have hs2 : Real.sin x < x := Real.sin_lt hx0
  have hlow : lo - hi ^ 3 / 4 ≤ Real.sin x := by nlinarith
  have hsnn : 0 ≤ Real.sin x := le_trans hq hlow
  constructor
  · nlinarith
  · nlinarith

/-- Two-sided bound on `cos x` for an angle in `[0, 1]` enclosed in a rational
interval, via the quartic Taylor bound `Real.cos_bound`. -/
lemma cos_bounds_of_le {x lo hi : ℝ} (h0 : 0 ≤ lo) (hl : lo ≤ x) (hh : x ≤ hi)
    (h1 : hi ≤ 1) :
    1 - hi ^ 2 / 2 - hi ^ 4 * (5 / 96) ≤ Real.cos x ∧
      Real.cos x ≤ 1 - lo ^ 2 / 2 + hi ^ 4 * (5 / 96) := by
  have hx0 : 0 ≤ x := le_trans h0 hl
  have hxa : |x| ≤ 1 := by
    rw [abs_of_nonneg hx0]
    exact le_trans hh h1
  have hb2 : |Real.cos x - (1 - x ^ 2 / 2)| ≤ x ^ 4 * (5 / 96) := by
    calc |Real.cos x - (1 - x ^ 2 / 2)| ≤ |x| ^ 4 * (5 / 96) := Real.cos_bound hxa
    _ = x ^ 4 * (5 / 96) := by rw [abs_of_nonneg hx0]
  rw [abs_le] at hb2
  have h2 : lo ^ 2 ≤ x ^ 2 := pow_le_pow_left₀ h0 hl 2
  have h2' : x ^ 2 ≤ hi ^ 2 := pow_le_pow_left₀ hx0 hh 2
  have h4 : x ^ 4 ≤ hi ^ 4 := pow_le_pow_left₀ hx0 hh 4
  exact ⟨by nlinarith [hb2.1], by nlinarith [hb2.2]⟩

lemma le_arcsin_self {x : ℝ} (h0 : 0 ≤ x) (h1 : x ≤ 1) : x ≤ Real.arcsin x := by
  have hs : Real.sin (Real.arcsin x) = x := Real.sin_arcsin (by linarith) h1
  have hnn : 0 ≤ Real.arcsin x := Real.arcsin_nonneg.2 h0
  rcases eq_or_lt_of_le hnn with h | h
  · have hx0 : x = 0 := by rw [← hs, ← h, Real.sin_zero]
    rw [hx0, Real.arcsin_zero]
  · have hlt := Real.sin_lt h
    rw [hs] at hlt
    exact hlt.le

lemma arcsin_le_of_le_sin {x B : ℝ} (hB0 : 0 ≤ B) (hBpi : B ≤ Real.pi / 2)
    (h : x ≤ Real.sin B) : Real.arcsin x ≤ B := by
  have hm := Real.monotone_arcsin h
  rwa [Real.arcsin_sin (by linarith [Real.pi_div_two_pos]) hBpi] at hm

set_option maxHeartbeats 1000000 in
/-- Numeric enclosure of the haversine distance from the shop origin to the
customer location (22.7196, 75.8577) of the spec's first concrete scenario:
the true value is ≈ 3.3586 km. -/
lemma haversine_scenario1_bounds :
    3.352 ≤ haversine_distance SHOP_LAT SHOP_LON 22.7196 75.8577 ∧
      haversine_distance SHOP_LAT SHOP_LON 22.7196 75.8577 ≤ 3.361 := by
  have hπl : (3.141592 : ℝ) < Real.pi := Real.pi_gt_d6
  have hπh : Real.pi < 3.141593 := Real.pi_lt_d6
  rw [haversine_def]
  have e1 : (radians 22.7196 - radians SHOP_LAT) / 2 = -(0.009276 * Real.pi / 180) := by
    unfold radians SHOP_LAT
    ring
  have e2 : (radians 75.8577 - radians SHOP_LON) / 2 = 0.012921 * Real.pi / 180 := by
    unfold radians SHOP_LON
    ring
  have e3 : radians SHOP_LAT = 22.738152 * Real.pi / 180 := rfl
  have e4 : radians (22.7196 : ℝ) = 22.7196 * Real.pi / 180 := rfl
  rw [e1, Real.sin_neg, neg_sq, e2, e3, e4]
  set t1 : ℝ := 0.009276 * Real.pi / 180 with ht1def
  set t2 : ℝ := 0.012921 * Real.pi / 180 with ht2def
  set x1 : ℝ := 22.738152 * Real.pi / 180 with hx1def
  set x2 : ℝ := 22.7196 * Real.pi / 180 with hx2def
  have ht1 : (0.000161896 : ℝ) ≤ t1 ∧ t1 ≤ 0.000161897 :=
    ⟨by rw [ht1def]; linarith, by rw [ht1def]; linarith⟩
  have ht2 : (0.00022551394 : ℝ) ≤ t2 ∧ t2 ≤ 0.00022551402 :=
    ⟨by rw [ht2def]; linarith, by rw [ht2def]; linarith⟩
  have hx1b : (0.39685553 : ℝ) ≤ x1 ∧ x1 ≤ 0.39685567 :=
    ⟨by rw [hx1def]; linarith, by rw [hx1def]; linarith⟩
  have hx2b : (0.39653174 : ℝ) ≤ x2 ∧ x2 ≤ 0.39653187 :=
    ⟨by rw [hx2def]; linarith, by rw [hx2def]; linarith⟩
  have hs1 := sin_sq_bounds (show (0 : ℝ) < 0.000161896 by norm_num) ht1.1 ht1.2
    (by norm_num) (by norm_num)
  have hp1 : (2.6210e-8 : ℝ) ≤ Real.sin t1 ^ 2 ∧ Real.sin t1 ^ 2 ≤ 2.62107e-8 :=
    ⟨le_trans (by norm_num) hs1.1, le_trans hs1.2 (by norm_num)⟩
  have hs2 := sin_sq_bounds (show (0 : ℝ) < 0.00022551394 by norm_num) ht2.1 ht2.2
    (by norm_num) (by norm_num)
  have hp2 : (5.08565e-8 : ℝ) ≤ Real.sin t2 ^ 2 ∧ Real.sin t2 ^ 2 ≤ 5.08567e-8 :=
    ⟨le_trans (by norm_num) hs2.1, le_trans hs2.2 (by norm_num)⟩
  have hc1 := cos_bounds_of_le (show (0 : ℝ) ≤ 0.39685553 by norm_num) hx1b.1 hx1b.2
    (by norm_num)
  have hc1' : (0.91996 : ℝ) ≤ Real.cos x1 ∧ Real.cos x1 ≤ 0.92255 :=
    ⟨le_trans (by norm_num) hc1.1, le_trans hc1.2 (by norm_num)⟩
  have hc2 := cos_bounds_of_le (show (0 : ℝ) ≤ 0.39653174 by norm_num) hx2b.1 hx2b.2
    (by norm_num)
  have hc2' : (0.92009 : ℝ) ≤ Real.cos x2 ∧ Real.cos x2 ≤ 0.92267 :=
    ⟨le_trans (by norm_num) hc2.1, le_trans hc2.2 (by norm_num)⟩
  have hprod : (0.91996 * 0.92009 : ℝ) ≤ Real.cos x1 * Real.cos x2 ∧
      Real.cos x1 * Real.cos x2 ≤ 0.92255 * 0.92267 := by
    constructor
    · exact mul_le_mul hc1'.1 hc2'.1 (by norm_num) (by linarith [hc1'.1])
    · exact mul_le_mul hc1'.2 hc2'.2 (by linarith [hc2'.1]) (by norm_num)
  set A : ℝ := Real.sin t1 ^ 2 + Real.cos x1 * Real.cos x2 * Real.sin t2 ^ 2 with hAdef
  have hA : (6.9257e-8 : ℝ) ≤ A ∧ A ≤ 6.9501e-8 := by
    constructor
    · have hterm : (0.91996 * 0.92009 : ℝ) * 5.08565e-8 ≤
          Real.cos x1 * Real.cos x2 * Real.sin t2 ^ 2 :=
        mul_le_mul hprod.1 hp2.1 (by norm_num) (by linarith [hprod.1])
      rw [hAdef]
      linarith [hp1.1, hterm]
    · have hterm : Real.cos x1 * Real.cos x2 * Real.sin t2 ^ 2 ≤
          (0.92255 * 0.92267 : ℝ) * 5.08567e-8 :=
        mul_le_mul hprod.2 hp2.2 (by positivity) (by norm_num)
      rw [hAdef]
      linarith [hp1.2, hterm]
  have hsq : (0.0002631 : ℝ) ≤ Real.sqrt A ∧ Real.sqrt A ≤ 0.0002637 := by
    constructor
    · refine Real.le_sqrt_of_sq_le ?_
      have hc : ((0.0002631 : ℝ)) ^ 2 ≤ 6.9257e-8 := by norm_num
      linarith [hA.1]
    · refine Real.sqrt_le_iff.2 ⟨by norm_num, ?_⟩
      have hc : (6.9501e-8 : ℝ) ≤ (0.0002637 : ℝ) ^ 2 := by norm_num
      linarith [hA.2]
  have harc : (0.0002631 : ℝ) ≤ Real.arcsin (Real.sqrt A) ∧
      Real.arcsin (Real.sqrt A) ≤ 0.00026371 := by
    constructor
    · exact le_trans hsq.1 (le_arcsin_self (Real.sqrt_nonneg A) (by linarith [hsq.2]))
    · refine arcsin_le_of_le_sin (by norm_num) (by linarith) ?_
      have hBs : (0.00026371 : ℝ) - 0.00026371 ^ 3 / 4 < Real.sin 0.00026371 :=
        Real.sin_gt_sub_cube (by norm_num) (by norm_num)
      have hc : (0.0002637 : ℝ) ≤ 0.00026371 - 0.00026371 ^ 3 / 4 := by norm_num
      linarith [hsq.2]
  constructor
  · linarith [harc.1]
  · linarith [harc.2]


/-- The 2-decimal rounding of the scenario-1 distance lies in [3.35, 3.36]
(the exact value rounds to 3.36). -/
lemma round2_scenario1 :
    3.35 ≤ round2 (haversine_distance SHOP_LAT SHOP_LON 22.7196 75.8577) ∧
      round2 (haversine_distance SHOP_LAT SHOP_LON 22.7196 75.8577) ≤ 3.36 := by
  obtain ⟨hlo, hhi⟩ := haversine_scenario1_bounds
  set d : ℝ := haversine_distance SHOP_LAT SHOP_LON 22.7196 75.8577 with hd
  have h1 : (335 : ℤ) ≤ round (100 * d) := by
    rw [round_eq]
    refine Int.le_floor.2 ?_
    push_cast
    linarith
  have h2 : round (100 * d) ≤ 336 := by
    rw [round_eq]
    have hfl : ((⌊100 * d + 1 / 2⌋ : ℤ) : ℝ) ≤ 100 * d + 1 / 2 := Int.floor_le _
    have hlt : (⌊100 * d + 1 / 2⌋ : ℤ) < 337 := by
      have : ((⌊100 * d + 1 / 2⌋ : ℤ) : ℝ) < 337 := by linarith
      exact_mod_cast this
    exact Int.lt_add_one_iff.1 hlt
  have h1' : (335 : ℝ) ≤ (round (100 * d) : ℤ) := by exact_mod_cast h1
  have h2' : ((round (100 * d) : ℤ) : ℝ) ≤ 336 := by exact_mod_cast h2
  unfold round2
  constructor
  · linarith
  · linarith

/-- The quote returned for scenario 1 of the spec: the free-delivery rule
fires, with the computed rounded distance echoed back. -/
lemma scenario1_quote :
    calculate_delivery_charge 22.7196 75.8577 2000 "delivery" =
      { distance_km := round2 (haversine_distance SHOP_LAT SHOP_LON 22.7196 75.8577)
        delivery_charge := 0
        is_free_delivery := true
        delivery_type := "delivery"
        message := .free_rule_message } := by
  unfold calculate_delivery_charge
  rw [if_neg (by decide)]
  unfold calculate_delivery_charge_core
  rw [if_pos ⟨by norm_num [FREE_DELIVERY_MIN_AMOUNT], by
    have h := round2_scenario1.2
    simp only [FREE_DELIVERY_MAX_DISTANCE_KM]
    linarith⟩]

/-- C4, counterexample: for the customer at (22.7196, 75.8577) with
`order_amount = 2000` and `delivery_type = "delivery"`, the `distance_km` of
the returned quote is NOT in the claimed range [2.1, 2.3] — the true
haversine distance from the shop origin is ≈ 3.3586 km. -/
theorem scenario1_distance_not_in_claimed_range :
    ¬(2.1 ≤ (calculate_delivery_charge 22.7196 75.8577 2000 "delivery").distance_km ∧
      (calculate_delivery_charge 22.7196 75.8577 2000 "delivery").distance_km ≤ 2.3) := by
  intro h
  obtain ⟨h21, h23⟩ := h
  rw [scenario1_quote] at h23
  have h23' : round2 (haversine_distance SHOP_LAT SHOP_LON 22.7196 75.8577) ≤ 2.3 := h23
  linarith [round2_scenario1.1]

/-- C4, amended: with the shop origin fixed at (22.738152, 75.831858), the
call for the customer at (22.7196, 75.8577) with `order_amount = 2000` and
`delivery_type = "delivery"` yields a `distance_km` in the range
3.35 to 3.36 km (the exact distance ≈ 3.3586 rounds to 3.36),
`delivery_charge = 0`, and `is_free_delivery = true`. -/
theorem scenario1_free_delivery :
    (3.35 ≤ (calculate_delivery_charge 22.7196 75.8577 2000 "delivery").distance_km ∧
      (calculate_delivery_charge 22.7196 75.8577 2000 "delivery").distance_km ≤ 3.36) ∧
    (calculate_delivery_charge 22.7196 75.8577 2000 "delivery").delivery_charge = 0 ∧
    (calculate_delivery_charge 22.7196 75.8577 2000 "delivery").is_free_delivery = true := by
  refine ⟨⟨?_, ?_⟩, ?_, ?_⟩
  · rw [scenario1_quote]
    exact round2_scenario1.1
  · rw [scenario1_quote]
    exact round2_scenario1.2
  · rw [scenario1_quote]
  · rw [scenario1_quote]

end Delivery
